import Mathlib

/-!
Shallow embedding of the notion_slack_send repository.

The repository has two entry points sharing near-identical helper code:
* the file-guarded entry point (`index.js`): `queryNotion`, `getTaskUrl`,
  `formatTasks`, `sendToSlack` (logs failures, never throws),
  `readLastSend` / `writeLastSend` over a local JSON marker file, and `run`;
* the request-handler entry point (`api` handler): the same helpers, except
  `sendToSlack` throws on a non-2xx response, plus an environment-variable
  check, and no marker file at all.

External effects (the Notion query endpoint, the Slack webhook, the marker
file, the clock) are modelled as an explicit environment record, and each
run is a pure function from that environment to a result carrying a trace
of the outbound calls it made.
-/

namespace NotionSlack

/-- JS `a || b` for a possibly-absent string `a`: an absent value and the
empty string are both falsy, so either falls through to `b`. -/
def jsOr (a : Option String) (b : String) : String :=
  match a with
  | none => b
  | some s => if s = "" then b else s

/-- A task record as the two entry points read it: the page id plus the three
optional-chained fields the formatter looks at
(`properties?.Title?.title?.[0]?.plain_text`,
`properties?.Name?.title?.[0]?.plain_text`,
`properties?.Status?.status?.name`). Each chain collapses to an optional
string: `none` when any link of the chain is absent. -/
structure Task where
  id : String
  titlePlainText : Option String
  namePlainText : Option String
  statusName : Option String
deriving DecidableEq, Repr

/-- The fixed link base used by `getTaskUrl`. -/
def notionBaseUrl : String := "https://www.notion.so/"

/-- JS global hyphen replacement on `task.id`: remove every hyphen from the
string. -/
def stripDashes (s : String) : String :=
  String.mk (s.data.filter (fun c => c ≠ '-'))

/-- `getTaskUrl` from both entry points: strip the hyphens from the page id
and append it to the canonical link base. -/
def getTaskUrl (task : Task) : String :=
  notionBaseUrl ++ stripDashes task.id

/-- The name chosen for a task in `formatTasks`: the `Title` plain text,
else the `Name` plain text, else the placeholder. -/
def taskName (task : Task) : String :=
  jsOr task.titlePlainText (jsOr task.namePlainText "Sem título")

/-- The status chosen for a task in `formatTasks`: the status name, else the
placeholder. -/
def taskStatus (task : Task) : String :=
  jsOr task.statusName "Sem status"

/-- One bullet line of `formatTasks`. -/
def bulletLine (task : Task) : String :=
  "• *<" ++ getTaskUrl task ++ "|" ++ taskName task ++ ">* – " ++ taskStatus task

/-- `formatTasks` from both entry points: on an empty list the bold title
plus the no-tasks line, otherwise the bold title followed by one bullet line
per task, joined by newlines. -/
def formatTasks (tasks : List Task) (title : String) : String :=
  if tasks.length = 0 then
    "*" ++ title ++ "*" ++ "\n" ++ "Nenhuma tarefa encontrada."
  else
    "*" ++ title ++ "*" ++ "\n" ++ String.intercalate "\n" (tasks.map bulletLine)

/-- The response the Notion query endpoint gives to one call: the HTTP
success flag `res.ok` and the optional `results` list of the JSON body
(`none` when the body has no `results` field). -/
structure NotionResponse where
  ok : Bool
  results : Option (List Task)
deriving DecidableEq, Repr

/-- What one call to `queryNotion` produces: the task list it returns and
whether it logged the error payload on the way. -/
structure QueryOutcome where
  tasks : List Task
  loggedError : Bool
deriving DecidableEq, Repr

/-- `queryNotion` from both entry points, as a function of the response the
endpoint gives: on a non-ok response it logs the error payload and returns
the empty list; on an ok response it returns `data.results` or the empty
list when that field is absent. It never throws. -/
def queryNotion (resp : NotionResponse) : QueryOutcome :=
  if !resp.ok then
    { tasks := [], loggedError := true }
  else
    { tasks := resp.results.getD [], loggedError := false }

/-- The two halves of the day. -/
inductive Period where
  | morning
  | evening
deriving DecidableEq, Repr

/-- The marker persisted in the local `.last_send.json` file: the date and
period of the last send. -/
structure SendRecord where
  date : String
  period : Period
deriving DecidableEq, Repr

/-- The filter argument of each `queryNotion` call site in `run`, keeping the
parameters the source splices into the JSON predicate tree: the first call
asks for tasks due on the given date whose status is not done, the second for
tasks last edited between the day bounds with status in-progress or done. -/
inductive QueryFilter where
  | dueTodayNotDone (date : String)
  | editedToday (startOfDay endOfDay : String)
deriving DecidableEq, Repr

/-- One observable outbound action of a run of the file-guarded entry point. -/
inductive Event where
  | queryCall (filter : QueryFilter)
  | sendCall (message : String)
  | slackErrorLog
  | writeRecord (record : SendRecord)
deriving DecidableEq, Repr

/-- Number of Notion query calls in a trace. -/
def countQueries (events : List Event) : Nat :=
  events.countP (fun e => match e with | .queryCall _ => true | _ => false)

/-- Number of Slack webhook send calls in a trace. -/
def countSends (events : List Event) : Nat :=
  events.countP (fun e => match e with | .sendCall _ => true | _ => false)

/-- Number of marker-file writes in a trace. -/
def countWrites (events : List Event) : Nat :=
  events.countP (fun e => match e with | .writeRecord _ => true | _ => false)

/-- The two terminal outcomes of `run`: the early return when the marker
matches, or the full query-format-send-persist path. -/
inductive RunOutcome where
  | skip
  | sent
deriving DecidableEq, Repr

/-- What a run of the file-guarded entry point did: its outbound-call trace,
in order, and its terminal outcome. -/
structure RunResult where
  events : List Event
  outcome : RunOutcome
deriving DecidableEq, Repr

/-- The environment one run of the file-guarded entry point observes: the
current hour and the date strings derived from the clock, the parsed content
of the marker file (`none` on a missing or corrupt file), the responses the
Notion endpoint gives to the two query calls, and whether the Slack webhook
answers with a success status. -/
structure RunEnv where
  hour : Nat
  todayDate : String
  startOfDay : String
  endOfDay : String
  lastSend : Option SendRecord
  resp1 : NotionResponse
  resp2 : NotionResponse
  slackOk : Bool
deriving DecidableEq, Repr

/-- The period computation of the file-guarded entry point: morning when the
hour is below 12, evening otherwise. -/
def runPeriod (hour : Nat) : Period :=
  if hour < 12 then .morning else .evening

/-- `run` from the file-guarded entry point. It derives the period from the
hour, returns early (skip) when the marker equals the pair of today and that
period, and otherwise issues the two query calls, formats both messages,
selects one by period, sends it to Slack (a failed send is only logged), and
writes the new marker. -/
def run (env : RunEnv) : RunResult :=
  let period := runPeriod env.hour
  if env.lastSend = some ⟨env.todayDate, period⟩ then
    { events := [], outcome := .skip }
  else
    let todayTasks := (queryNotion env.resp1).tasks
    let changedTasks := (queryNotion env.resp2).tasks
    let morningMessage := formatTasks todayTasks "Bom dia! Estas são as tarefas para hoje:"
    let eveningMessage := formatTasks changedTasks "Resumo do dia – alterações:"
    let message := if period = .morning then morningMessage else eveningMessage
    let events :=
      if env.slackOk then
        [Event.queryCall (.dueTodayNotDone env.todayDate),
         Event.queryCall (.editedToday env.startOfDay env.endOfDay),
         Event.sendCall message,
         Event.writeRecord ⟨env.todayDate, period⟩]
      else
        [Event.queryCall (.dueTodayNotDone env.todayDate),
         Event.queryCall (.editedToday env.startOfDay env.endOfDay),
         Event.sendCall message,
         Event.slackErrorLog,
         Event.writeRecord ⟨env.todayDate, period⟩]
    { events := events, outcome := .sent }

/-- JS truthiness of an environment variable: absent and empty are falsy. -/
def truthy (v : Option String) : Bool :=
  match v with
  | none => false
  | some s => s ≠ ""

/-- The environment one invocation of the request handler observes: the three
environment variables, the clock-derived values, the responses to the two
query calls, and the Slack webhook result (success flag, and the status and
body text used in the thrown error message when it fails). -/
structure HandlerEnv where
  notionApiKey : Option String
  notionDatabaseId : Option String
  slackWebhookUrl : Option String
  hour : Nat
  todayDate : String
  startOfDay : String
  endOfDay : String
  nowISO : String
  resp1 : NotionResponse
  resp2 : NotionResponse
  slackOk : Bool
  slackStatus : Nat
  slackErrorText : String
deriving DecidableEq, Repr

/-- The JSON body of the handler response: the structured
missing-environment error, the success summary (`success`, `message`,
`period`, `todayTasksCount`, `changedTasksCount`, `timestamp`), or the
catch-all error built from a thrown error message. -/
inductive HandlerBody where
  | envError (error : String) (missing : List String)
  | ok (success : Bool) (message : String) (period : Period)
       (todayTasksCount : Nat) (changedTasksCount : Nat) (timestamp : String)
  | caughtError (error : String)
deriving DecidableEq, Repr

/-- The HTTP response of the request handler. -/
structure HandlerResponse where
  status : Nat
  body : HandlerBody
deriving DecidableEq, Repr

/-- The list of absent environment variables, pushed in source order. -/
def missingEnvVars (env : HandlerEnv) : List String :=
  (if !truthy env.notionApiKey then ["NOTION_API_KEY"] else [])
    ++ (if !truthy env.notionDatabaseId then ["NOTION_DATABASE_ID"] else [])
    ++ (if !truthy env.slackWebhookUrl then ["SLACK_WEBHOOK_URL"] else [])

/-- The period computation of the request-handler entry point: morning when
the hour is below 15, evening otherwise. -/
def handlerPeriod (hour : Nat) : Period :=
  if hour < 15 then .morning else .evening

/-- The request handler of the second entry point. It first checks the three
environment variables and answers 500 with the full missing list when any is
falsy; otherwise it derives the period from the hour (threshold 15), issues
the two query calls, formats both messages, selects one by period, and sends
it; its `sendToSlack` throws on a non-success status, which the catch block
turns into a 500 with the thrown message; on success it answers 200 with the
summary body. No marker file is consulted or written. -/
def handler (env : HandlerEnv) : HandlerResponse :=
  if !truthy env.notionApiKey || !truthy env.notionDatabaseId
      || !truthy env.slackWebhookUrl then
    { status := 500,
      body := .envError "Variáveis de ambiente não configuradas" (missingEnvVars env) }
  else
    let period := handlerPeriod env.hour
    let todayTasks := (queryNotion env.resp1).tasks
    let changedTasks := (queryNotion env.resp2).tasks
    let morningMessage := formatTasks todayTasks "☀️ Bom dia! Estas são as tarefas para hoje:"
    let eveningMessage := formatTasks changedTasks "🌙 Resumo do dia – tarefas alteradas:"
    let _message := if period = .morning then morningMessage else eveningMessage
    if env.slackOk then
      { status := 200,
        body := .ok true "Mensagem enviada com sucesso" period
          todayTasks.length changedTasks.length env.nowISO }
    else
      { status := 500,
        body := .caughtError
          ("Erro no Slack: " ++ toString env.slackStatus ++ " - " ++ env.slackErrorText) }

/-- A period threshold as the specification describes it: morning when the
hour is below the threshold, evening otherwise. -/
def periodOf (threshold hour : Nat) : Period :=
  if hour < threshold then .morning else .evening

/-- A run environment whose marker already records (today, current period):
hour 8 is morning, and the marker says morning of the same date. -/
def skipEnv : RunEnv :=
  ⟨8, "2025-01-02", "2025-01-02T00:00", "2025-01-02T23:59",
    some ⟨"2025-01-02", .morning⟩, ⟨true, some []⟩, ⟨true, some []⟩, true⟩

/-- A run environment with no marker and a failing Slack webhook. -/
def failEnv : RunEnv :=
  ⟨20, "2025-01-02", "2025-01-02T00:00", "2025-01-02T23:59",
    none, ⟨true, some []⟩, ⟨true, some []⟩, false⟩

/-- Helper: on the non-skip path the last trace event of `run` is the marker
write for today and the current period. -/
theorem run_events_getLast (env : RunEnv)
    (hstale : env.lastSend ≠ some ⟨env.todayDate, runPeriod env.hour⟩) :
    (run env).events.getLast?
      = some (.writeRecord ⟨env.todayDate, runPeriod env.hour⟩) := by
  cases hok : env.slackOk <;> simp [run, hstale, hok, List.getLast?]

/-- C1: when the stored marker equals the pair of today and the current
period, `run` terminates with skip and its trace is empty, so it issues zero
Notion query calls and zero Slack send calls. -/
theorem run_skip_spec (env : RunEnv)
    (hmatch : env.lastSend = some ⟨env.todayDate, runPeriod env.hour⟩) :
    (run env).outcome = .skip ∧ (run env).events = []
    ∧ countQueries (run env).events = 0 ∧ countSends (run env).events = 0 := by
  simp [run, hmatch, countQueries, countSends]

/-- C1 witness: a concrete environment whose marker matches today and the
morning period. -/
theorem run_skip_spec_witness :
    (run skipEnv).outcome = .skip ∧ (run skipEnv).events = []
    ∧ countQueries (run skipEnv).events = 0 ∧ countSends (run skipEnv).events = 0 :=
  run_skip_spec skipEnv (by decide)

/-- C7: when the stored marker is absent or differs from (today, current
period), `run` issues exactly two query calls and one send call, and its last
action is writing the new marker for today and the current period. -/
theorem run_fresh_spec (env : RunEnv)
    (hstale : env.lastSend ≠ some ⟨env.todayDate, runPeriod env.hour⟩) :
    (run env).outcome = .sent
    ∧ countQueries (run env).events = 2
    ∧ countSends (run env).events = 1
    ∧ (run env).events.getLast?
        = some (.writeRecord ⟨env.todayDate, runPeriod env.hour⟩) := by
  cases hok : env.slackOk <;>
    simp [run, hstale, hok, countQueries, countSends, List.getLast?]

/-- C7 witness: a concrete environment with no stored marker. -/
theorem run_fresh_spec_witness :
    (run failEnv).outcome = .sent
    ∧ countQueries (run failEnv).events = 2
    ∧ countSends (run failEnv).events = 1
    ∧ (run failEnv).events.getLast?
        = some (.writeRecord ⟨"2025-01-02", Period.evening⟩) := by
  have hmain := run_fresh_spec failEnv (by decide)
  exact ⟨hmain.1, hmain.2.1, hmain.2.2.1, hmain.2.2.2.trans (by decide)⟩

/-- C2 counterexample: in the file-guarded entry point a failed Slack send is
only logged, and the marker file is still written in the same run, so the
Send-State Store is updated even though the send failed. -/
theorem run_sendFail_claim_cex :
    failEnv.slackOk = false
    ∧ Event.slackErrorLog ∈ (run failEnv).events
    ∧ countWrites (run failEnv).events = 1
    ∧ Event.writeRecord ⟨"2025-01-02", .evening⟩ ∈ (run failEnv).events := by
  decide

/-- C2 amended: in the file-guarded entry point a failed webhook send is
logged and swallowed, and the new marker is still written afterwards, so the
next run for the same (date, period) skips instead of retrying. -/
theorem run_sendFail_writes (env : RunEnv)
    (hstale : env.lastSend ≠ some ⟨env.todayDate, runPeriod env.hour⟩)
    (hfail : env.slackOk = false) :
    Event.slackErrorLog ∈ (run env).events
    ∧ countWrites (run env).events = 1
    ∧ (run env).events.getLast?
        = some (.writeRecord ⟨env.todayDate, runPeriod env.hour⟩)
    ∧ (run env).outcome = .sent := by
  simp [run, hstale, hfail, countWrites, List.getLast?]

/-- C2 amended witness: the same concrete failing-webhook environment. -/
theorem run_sendFail_writes_witness :
    failEnv.lastSend ≠ some ⟨failEnv.todayDate, runPeriod failEnv.hour⟩
    ∧ failEnv.slackOk = false
    ∧ Event.slackErrorLog ∈ (run failEnv).events
    ∧ countWrites (run failEnv).events = 1 := by
  have hmain := run_sendFail_writes failEnv (by decide) rfl
  exact ⟨by decide, rfl, hmain.1, hmain.2.1⟩

/-- A handler environment with two falsy variables: the API key is absent and
the webhook URL is the empty string. -/
def missEnv : HandlerEnv :=
  ⟨none, some "db", some "", 9, "2025-01-02", "2025-01-02T00:00",
    "2025-01-02T23:59", "2025-01-02T09:00", ⟨true, some []⟩, ⟨true, some []⟩,
    true, 200, ""⟩

/-- A fully configured handler environment at hour 10 whose first query
succeeds with two tasks and whose second query fails. -/
def okEnv : HandlerEnv :=
  ⟨some "key", some "db", some "hook", 10, "2025-01-02", "2025-01-02T00:00",
    "2025-01-02T23:59", "2025-01-02T10:00",
    ⟨true, some [⟨"a-b", some "A", none, some "Em Progresso"⟩,
                 ⟨"c-d", none, some "C", none⟩]⟩,
    ⟨false, some [⟨"e-f", none, none, none⟩]⟩, true, 200, ""⟩

/-- C3: when any of the three environment variables is falsy, the handler
answers 500 with the structured error body, and the missing list contains a
variable's name exactly when that variable is falsy — so every absent
variable is named, not only the first. -/
theorem handler_missingEnv_spec (env : HandlerEnv)
    (hmiss : truthy env.notionApiKey = false ∨ truthy env.notionDatabaseId = false
      ∨ truthy env.slackWebhookUrl = false) :
    (handler env).status = 500
    ∧ (handler env).body
        = .envError "Variáveis de ambiente não configuradas" (missingEnvVars env)
    ∧ (("NOTION_API_KEY" ∈ missingEnvVars env) ↔ truthy env.notionApiKey = false)
    ∧ (("NOTION_DATABASE_ID" ∈ missingEnvVars env)
        ↔ truthy env.notionDatabaseId = false)
    ∧ (("SLACK_WEBHOOK_URL" ∈ missingEnvVars env)
        ↔ truthy env.slackWebhookUrl = false) := by
  have hcond : (!truthy env.notionApiKey || !truthy env.notionDatabaseId
      || !truthy env.slackWebhookUrl) = true := by
    rcases hmiss with h | h | h <;> simp [h]
  refine ⟨by simp [handler, hcond], by simp [handler, hcond], ?_, ?_, ?_⟩ <;>
    cases ha : truthy env.notionApiKey <;>
      cases hb : truthy env.notionDatabaseId <;>
        cases hc : truthy env.slackWebhookUrl <;>
          simp [missingEnvVars, ha, hb, hc]

/-- C3 witness: with the API key absent and the webhook URL empty, the
missing list names both, skipping the configured database id. -/
theorem handler_missingEnv_spec_witness :
    truthy missEnv.notionApiKey = false
    ∧ (handler missEnv).status = 500
    ∧ (handler missEnv).body = .envError "Variáveis de ambiente não configuradas"
        ["NOTION_API_KEY", "SLACK_WEBHOOK_URL"] := by
  have hmain := handler_missingEnv_spec missEnv (Or.inl rfl)
  exact ⟨rfl, hmain.1, hmain.2.1.trans (by decide)⟩

/-- C10: when all three variables are truthy and the webhook answers with a
success status, the handler answers 200, with success true, the fixed
message, the period from the 15-hour threshold, the two query result lengths
as the task counts, and the current timestamp. -/
theorem handler_success_spec (env : HandlerEnv)
    (ha : truthy env.notionApiKey = true) (hb : truthy env.notionDatabaseId = true)
    (hc : truthy env.slackWebhookUrl = true) (hs : env.slackOk = true) :
    handler env
      = ⟨200, .ok true "Mensagem enviada com sucesso" (handlerPeriod env.hour)
          (queryNotion env.resp1).tasks.length (queryNotion env.resp2).tasks.length
          env.nowISO⟩ := by
  simp [handler, ha, hb, hc, hs]

/-- C10 witness: a concrete configured environment; the first query returns
two tasks and the second fails (hence count 0 by the fail-open policy). -/
theorem handler_success_spec_witness :
    handler okEnv
      = ⟨200, .ok true "Mensagem enviada com sucesso" Period.morning 2 0
          "2025-01-02T10:00"⟩ :=
  (handler_success_spec okEnv (by decide) (by decide) (by decide) rfl).trans
    (by decide)

/-- C8: for every hour below 24, the period each entry point uses is the
threshold computation — threshold 12 in the file-guarded `run` (visible in
the marker it writes) and threshold 15 in the request handler (visible in its
success body). -/
theorem period_thresholds_spec (h : Nat) (hlt : h < 24)
    (env : RunEnv) (he : env.hour = h) (hl : env.lastSend = none)
    (henv : HandlerEnv) (hhe : henv.hour = h)
    (ha : truthy henv.notionApiKey = true) (hb : truthy henv.notionDatabaseId = true)
    (hc : truthy henv.slackWebhookUrl = true) (hs : henv.slackOk = true) :
    runPeriod h = periodOf 12 h
    ∧ handlerPeriod h = periodOf 15 h
    ∧ (run env).events.getLast? = some (.writeRecord ⟨env.todayDate, periodOf 12 h⟩)
    ∧ (handler henv).body
        = .ok true "Mensagem enviada com sucesso" (periodOf 15 h)
          (queryNotion henv.resp1).tasks.length (queryNotion henv.resp2).tasks.length
          henv.nowISO := by
  subst he
  have hstale : env.lastSend ≠ some ⟨env.todayDate, runPeriod env.hour⟩ := by
    simp [hl]
  refine ⟨rfl, rfl, ?_, ?_⟩
  · have hperiod : periodOf 12 env.hour = runPeriod env.hour := rfl
    rw [hperiod]
    exact run_events_getLast env hstale
  · simp [handler, ha, hb, hc, hs, hhe, handlerPeriod, periodOf]

/-- A run environment at hour 13 with no marker. -/
def hourThirteenRunEnv : RunEnv :=
  ⟨13, "2025-01-02", "2025-01-02T00:00", "2025-01-02T23:59",
    none, ⟨true, some []⟩, ⟨true, some []⟩, true⟩

/-- A configured handler environment at hour 13. -/
def hourThirteenHandlerEnv : HandlerEnv :=
  ⟨some "key", some "db", some "hook", 13, "2025-01-02", "2025-01-02T00:00",
    "2025-01-02T23:59", "2025-01-02T13:00", ⟨true, some []⟩, ⟨true, some []⟩,
    true, 200, ""⟩

/-- C8 witness: at hour 13 the two thresholds diverge — the file-guarded run
writes an evening marker while the handler reports the morning period. -/
theorem period_thresholds_spec_witness :
    (13 : Nat) < 24
    ∧ (run hourThirteenRunEnv).events.getLast?
        = some (.writeRecord ⟨"2025-01-02", Period.evening⟩)
    ∧ (handler hourThirteenHandlerEnv).body
        = .ok true "Mensagem enviada com sucesso" Period.morning 0 0
            "2025-01-02T13:00" := by
  have hmain := period_thresholds_spec 13 (by decide) hourThirteenRunEnv rfl rfl
    hourThirteenHandlerEnv rfl (by decide) (by decide) (by decide) rfl
  exact ⟨by decide, hmain.2.2.1.trans (by decide), hmain.2.2.2.trans (by decide)⟩

/-- C6: `queryNotion` never throws; on a non-ok response it logs the error
payload and returns the empty list, and on an ok response it returns the
results list of the body, or the empty list when that field is absent,
without logging. -/
theorem queryNotion_spec (resp : NotionResponse) :
    (resp.ok = false → queryNotion resp = ⟨[], true⟩)
    ∧ (resp.ok = true → (queryNotion resp).tasks = resp.results.getD []
        ∧ (queryNotion resp).loggedError = false)
    ∧ (resp.ok = true → resp.results = none → (queryNotion resp).tasks = []) := by
  refine ⟨fun h => ?_, fun h => ?_, fun h hr => ?_⟩ <;> simp [queryNotion, h]
  · simp [hr]

/-- C6 witness: a failed response with a nonempty body yields the empty list
with the error logged; an ok response without a results field yields the
empty list. -/
theorem queryNotion_spec_witness :
    queryNotion ⟨false, some [⟨"a", none, none, none⟩]⟩ = ⟨[], true⟩
    ∧ (queryNotion ⟨true, none⟩).tasks = [] :=
  ⟨(queryNotion_spec ⟨false, some [⟨"a", none, none, none⟩]⟩).1 rfl,
   (queryNotion_spec ⟨true, none⟩).2.2 rfl rfl⟩

/-- C9: the task URL is deterministically the canonical link base followed by
the task id with every hyphen removed, and no character of the URL is a
hyphen. -/
theorem getTaskUrl_spec (task : Task) :
    getTaskUrl task = notionBaseUrl ++ stripDashes task.id
    ∧ ∀ c ∈ (getTaskUrl task).data, c ≠ '-' := by
  refine ⟨rfl, fun c hc => ?_⟩
  rw [getTaskUrl, String.data_append] at hc
  rcases List.mem_append.mp hc with h | h
  · have hbase : ∀ c ∈ notionBaseUrl.data, c ≠ '-' := by decide
    exact hbase c h
  · simp only [stripDashes, List.mem_filter] at h
    simpa using h.2

/-- C9 witness: a concrete id with two hyphens maps to the hyphen-free URL. -/
theorem getTaskUrl_spec_witness :
    getTaskUrl ⟨"ab-cd-ef", none, none, none⟩ = "https://www.notion.so/abcdef" :=
  ((getTaskUrl_spec ⟨"ab-cd-ef", none, none, none⟩).1).trans (by decide)

/-- C4 counterexample: the empty-list message is not the bare title followed
by the no-tasks line — the formatter wraps the title in asterisks. -/
theorem formatTasks_empty_claim_cex :
    formatTasks [] "T" ≠ "T" ++ "\n" ++ "Nenhuma tarefa encontrada." := by
  decide

/-- C4 amended: on an empty task list the formatter returns the title wrapped
in asterisks, a newline, then the no-tasks line — still a two-line message
(exactly one newline) whenever the title itself has none. -/
theorem formatTasks_empty_spec (title : String) :
    formatTasks [] title
      = "*" ++ title ++ "*" ++ "\n" ++ "Nenhuma tarefa encontrada."
    ∧ (title.data.count '\n' = 0 →
        (formatTasks [] title).data.count '\n' = 1) := by
  refine ⟨rfl, fun h => ?_⟩
  simp [formatTasks, String.data_append, List.count_append, h]

/-- A task whose Title field is set. -/
def taskA : Task := ⟨"a-b", some "A", none, some "Em Progresso"⟩

/-- A task with no Title field, a Name field, and no status. -/
def taskB : Task := ⟨"c-d", none, some "C", none⟩

/-- C5: on a nonempty task list the formatter output is the bold title line
followed by the bullet lines of the tasks, one per task in input order,
joined by newlines; each bullet line has the documented shape, the name falls
back through the Title and Name fields to the placeholder, and the status
defaults to its placeholder when absent. -/
theorem formatTasks_nonempty_spec (tasks : List Task) (title : String)
    (hne : tasks ≠ []) :
    formatTasks tasks title
      = "*" ++ title ++ "*" ++ "\n" ++ String.intercalate "\n" (tasks.map bulletLine)
    ∧ (tasks.map bulletLine).length = tasks.length
    ∧ (∀ task ∈ tasks, bulletLine task
        = "• *<" ++ getTaskUrl task ++ "|" ++ taskName task ++ ">* – "
            ++ taskStatus task)
    ∧ (∀ task ∈ tasks, task.titlePlainText = none → task.namePlainText = none →
        taskName task = "Sem título")
    ∧ (∀ task ∈ tasks, ∀ n, task.titlePlainText = some n → n ≠ "" →
        taskName task = n)
    ∧ (∀ task ∈ tasks, task.statusName = none → taskStatus task = "Sem status") := by
  have h0 : ¬ tasks.length = 0 := by simpa using hne
  refine ⟨by simp [formatTasks, h0], by simp, fun task _ => rfl,
    fun task _ h1 h2 => by simp [taskName, jsOr, h1, h2],
    fun task _ n h1 hn => by simp [taskName, jsOr, h1, hn],
    fun task _ h => by simp [taskStatus, jsOr, h]⟩

/-- C5 witness: two concrete tasks exercising the Title fallback, the Name
fallback and the status placeholder. -/
theorem formatTasks_nonempty_spec_witness :
    formatTasks [taskA, taskB] "T"
      = "*T*\n• *<https://www.notion.so/ab|A>* – Em Progresso\n• *<https://www.notion.so/cd|C>* – Sem status" := by
  have hmain := formatTasks_nonempty_spec [taskA, taskB] "T" (by decide)
  exact hmain.1.trans (by decide)

/-- C4 amended witness: the concrete one-character title. -/
theorem formatTasks_empty_spec_witness :
    formatTasks [] "T" = "*T*\nNenhuma tarefa encontrada."
    ∧ ("T".data.count '\n' = 0 ∧ (formatTasks [] "T").data.count '\n' = 1) := by
  have hmain := formatTasks_empty_spec "T"
  exact ⟨hmain.1.trans (by decide), by decide, hmain.2 (by decide)⟩

end NotionSlack
